import Mathlib

/-!
Verification of the telnet log-redirection component
(`components/telnet/telnet.c`): a shallow embedding of its pure control
logic, with theorems checking the natural-language specification against it.

Bytes are modelled as natural numbers (the C code works on `char` data);
the ring buffer as a list of bytes, oldest first; the fallible pointer
scan of `process_received_data` as an `Option`-valued recursion where
`none` marks the scan leaving the payload (an out-of-bounds read in C).
-/

namespace Telnet

/-- ASCII escape, the character the C literal backslash-e denotes. -/
def escByte : Nat := 27

/-- ASCII lowercase letter n, the terminator the scrub loop scans for. -/
def nByte : Nat := 110

/-- ASCII carriage return. -/
def crByte : Nat := 13

/-- ASCII line feed. -/
def lfByte : Nat := 10

/--
The scrub loop of `process_received_data`:
`while(*(c++) != 'n')` advances the pointer past every byte up to and
including the first `'n'`.  `none` means the loop consumed the whole
payload without meeting an `'n'`, so in C the pointer has moved past the
payload's last byte and the scan continues out of bounds.
-/
def scanEsc : List Nat → Option (List Nat)
  | [] => none
  | c :: rest => if c = nByte then some rest else scanEsc rest

/--
The same loop with the `size` bookkeeping made explicit: the body
executes `--size` once per byte read that is not `'n'`, and the statement
after the loop executes one final `--size`.  `size` is carried as an
integer so that a drop below zero (a `size_t` wrap-around in C) is
visible rather than silently truncated.
-/
def scanEscSz : List Nat → Int → Option (List Nat × Int)
  | [], _ => none
  | c :: rest, sz => if c = nByte then some (rest, sz - 1) else scanEscSz rest (sz - 1)

/--
The escape-stripping step at the head of `process_received_data`: when
the first byte is the escape character the scrub loop runs (starting at
the escape byte itself), otherwise the payload is left untouched.  An
empty payload dereferences the buffer pointer out of bounds, hence `none`.
-/
def stripEscape (buf : List Nat) : Option (List Nat) :=
  match buf with
  | [] => none
  | c :: _ => if c = escByte then scanEsc buf else some buf

/-- The externally visible actions of one `process_received_data` call. -/
structure RxEffect where
  /-- The bytes echoed to the UART file descriptor, when mirroring is on. -/
  uartEcho : Option (List Nat)
  /-- The argument of the single `run_command` call, when one is made. -/
  command : Option (List Nat)
deriving Repr, DecidableEq

/--
The body of `process_received_data`: strip one leading escape sequence, then, unless
the first remaining byte is carriage return or line feed, mirror the
remainder to the UART (if enabled) and hand it to `run_command`.  The
first-byte test reads `command[0]` of the NUL-terminated copy, so an
empty remainder tests the terminator byte 0.
-/
def process_received_data (mirror : Bool) (buf : List Nat) : Option RxEffect :=
  match stripEscape buf with
  | none => none
  | some cmd =>
    let first := cmd.headD 0
    if first = crByte ∨ first = lfByte then
      some ⟨none, none⟩
    else
      some ⟨if mirror then some cmd else none, some cmd⟩

/--
The `while(uxBytesToSend>0)` loop of `process_logs`, carried by a fuel
argument so the recursion is structural (each pass strictly shrinks the
buffer, so any fuel above the buffer length is enough; `drainLoop` below
supplies it).  One pass models `xRingbufferReceiveUpTo`: it yields up to
`toSend` oldest bytes, or NULL (the `buf = []` guard) once the buffer is
empty, upon which the loop breaks.  When a partner socket is attached the
received item is passed to `telnet_send_text` (accumulated in the second
component); either way `vRingbufferReturnItem` removes it from the
buffer.
-/
def drainGo (attached : Bool) : Nat → Nat → List Nat → List Nat × List Nat
  | 0, _, buf => (buf, [])
  | fuel + 1, toSend, buf =>
    if toSend = 0 ∨ buf = [] then (buf, [])
    else
      let item := buf.take toSend
      let next := drainGo attached fuel (toSend - item.length) (buf.drop toSend)
      (next.1, (if attached then item else []) ++ next.2)

/-- The drain loop with enough fuel for its worst case.  Returns the
remaining buffer and the bytes sent to the telnet session, in order. -/
def drainLoop (attached : Bool) (toSend : Nat) (buf : List Nat) : List Nat × List Nat :=
  drainGo attached (toSend + buf.length + 2) toSend buf

/--
The drain entry `process_logs(count)`: `uxItemsWaiting` is the occupancy `buf.length`;
`uxBytesToSend` is `count`, or the whole occupancy when `count == 0`.
When no partner socket is attached and occupancy is below the 75 %
high-water mark (integer arithmetic, as in the C expression
`uxItemsWaiting*100 / log_buf_size < 75`) the call returns at once;
otherwise the drain loop runs, sending to the peer only when a partner
socket is attached.
-/
def process_logs (partnerSocket log_buf_size count : Nat) (buf : List Nat) :
    List Nat × List Nat :=
  if partnerSocket = 0 ∧ buf.length * 100 / log_buf_size < 75 then
    (buf, [])
  else
    drainLoop (partnerSocket != 0) (if count = 0 then buf.length else count) buf

/-- Model of `xRingbufferSend` on a byte buffer: the append succeeds exactly when
the free space holds the whole item.  (No concurrent consumer exists in
the sequential model, so the bounded 100 ms wait cannot create room.) -/
def ringSend (cap : Nat) (buf data : List Nat) : Option (List Nat) :=
  if buf.length + data.length ≤ cap then some (buf ++ data) else none

/-- The externally visible outcome of one `stdout_write` call. -/
structure WriteOutcome where
  /-- The ring buffer contents after the call. -/
  buf : List Nat
  /-- Whether the data made it into the ring buffer. -/
  stored : Bool
  /-- How many times `process_logs` was invoked to make room. -/
  compactions : Nat
  /-- How many `xRingbufferSend` attempts were made. -/
  appendAttempts : Nat
  /-- Bytes handed to `telnet_send_text` during the compaction pass. -/
  sentToPeer : List Nat
  /-- The bytes written to the UART, when mirroring is on. -/
  uartOut : Option (List Nat)
  /-- The return value: the UART write result when mirroring, else `true` (1). -/
  ret : Int
deriving Repr, DecidableEq

/--
The producer entry `stdout_write`: under the semaphore (acquired within 10 ticks or the
buffered path is skipped entirely), try one `xRingbufferSend`; on
failure call `process_logs(size)` once and retry exactly once; on a
second failure print an abort message and drop the data.  Regardless of
that path's outcome, the final statement mirrors the data to the UART
when mirroring is enabled and returns the UART result, else returns
`true` (the integer 1).
-/
def stdout_write (mirror lockOk : Bool) (partnerSocket cap : Nat) (uartRet : Int)
    (buf data : List Nat) : WriteOutcome :=
  if lockOk then
    match ringSend cap buf data with
    | some b1 =>
      ⟨b1, true, 0, 1, [], if mirror then some data else none,
        if mirror then uartRet else 1⟩
    | none =>
      match ringSend cap (process_logs partnerSocket cap data.length buf).1 data with
      | some b2 =>
        ⟨b2, true, 1, 2, (process_logs partnerSocket cap data.length buf).2,
          if mirror then some data else none, if mirror then uartRet else 1⟩
      | none =>
        ⟨(process_logs partnerSocket cap data.length buf).1, false, 1, 2,
          (process_logs partnerSocket cap data.length buf).2,
          if mirror then some data else none, if mirror then uartRet else 1⟩
  else
    ⟨buf, false, 0, 0, [], if mirror then some data else none,
      if mirror then uartRet else 1⟩

/-- Telnet negotiation verb WILL (251): offer to enable on our side. -/
def TELNET_WILL : Nat := 251

/-- Telnet negotiation verb WONT (252): refuse to enable on our side. -/
def TELNET_WONT : Nat := 252

/-- Telnet negotiation verb DO (253): accept the peer enabling it. -/
def TELNET_DO : Nat := 253

/-- Telnet negotiation verb DONT (254): refuse the peer enabling it. -/
def TELNET_DONT : Nat := 254

/-- Option code: binary transmission. -/
def TELNET_TELOPT_BINARY : Int := 0

/-- Option code: echo. -/
def TELNET_TELOPT_ECHO : Int := 1

/-- Option code: terminal type. -/
def TELNET_TELOPT_TTYPE : Int := 24

/-- Option code: negotiate about window size. -/
def TELNET_TELOPT_NAWS : Int := 31

/-- Option code: line mode. -/
def TELNET_TELOPT_LINEMODE : Int := 34

/-- Option code: MUD server status protocol (the site-specific status
option). -/
def TELNET_TELOPT_MSSP : Int := 70

/-- Option code: compression, version 2. -/
def TELNET_TELOPT_COMPRESS2 : Int := 86

/-- Option code: zenith MUD protocol (the custom administrative class). -/
def TELNET_TELOPT_ZMP : Int := 93

/-- One row of libtelnet's option table: the option code, the verb sent
for the local side (`us`: WILL offers, WONT refuses) and the verb
answering the peer's offer of its side (`him`: DO accepts, DONT
refuses). -/
structure telnet_telopt_t where
  telopt : Int
  us : Nat
  him : Nat
deriving Repr, DecidableEq

/-- The static option table `my_telopts` of `handle_telnet_conn`, ended
by the sentinel row. -/
def my_telopts : List telnet_telopt_t :=
  [⟨TELNET_TELOPT_ECHO, TELNET_WONT, TELNET_DO⟩,
   ⟨TELNET_TELOPT_TTYPE, TELNET_WILL, TELNET_DONT⟩,
   ⟨TELNET_TELOPT_COMPRESS2, TELNET_WONT, TELNET_DO⟩,
   ⟨TELNET_TELOPT_ZMP, TELNET_WONT, TELNET_DO⟩,
   ⟨TELNET_TELOPT_MSSP, TELNET_WONT, TELNET_DO⟩,
   ⟨TELNET_TELOPT_BINARY, TELNET_WILL, TELNET_DO⟩,
   ⟨TELNET_TELOPT_NAWS, TELNET_WILL, TELNET_DONT⟩,
   ⟨TELNET_TELOPT_LINEMODE, TELNET_WONT, TELNET_DO⟩,
   ⟨-1, 0, 0⟩]

/-- The `(us, him)` stance pair a table assigns to an option, if listed. -/
def stanceOf (table : List telnet_telopt_t) (opt : Int) : Option (Nat × Nat) :=
  (table.find? fun row => row.telopt == opt).map fun row => (row.us, row.him)

/-- newlib errno code EAGAIN on the ESP32 (11). -/
def EAGAIN : Nat := 11

/-- newlib errno code EWOULDBLOCK on the ESP32 — the same value 11. -/
def EWOULDBLOCK : Nat := 11

/-- What one `MSG_DONTWAIT` `recv` call can report: a nonempty chunk
(positive return), an orderly peer close (return 0, `errno` untouched),
or a failure (negative return, `errno` set to the given code). -/
inductive RecvResult where
  | chunk (bytes : List Nat)
  | closed
  | fail (e : Nat)
deriving Repr, DecidableEq

/-- The resources released by the teardown branch of the session loop. -/
structure Teardown where
  /-- Whether `telnet_free` was called on the engine handle. -/
  freedHandle : Bool
  /-- The receive scratch buffer was freed. -/
  freedRxbuf : Bool
  /-- The per-session user data was freed. -/
  freedUserData : Bool
  /-- The socket descriptor was closed. -/
  closedSocket : Bool
  /-- The value left in the global partner-socket slot. -/
  partnerSocket : Nat
deriving Repr, DecidableEq

/-- What one pass of the receive step decides. -/
inductive StepResult where
  | looping (errnoAfter : Nat)
  | ended (t : Teardown)
deriving Repr, DecidableEq

/--
The receive step of the `handle_telnet_conn` loop: a positive length
feeds the decoder and the loop goes on; otherwise the session is torn
down only when `errno` differs from EAGAIN and EWOULDBLOCK.  The
teardown frees the engine handle, the scratch buffer and the user data
and clears the partner-socket slot to 0; no statement closes the socket
descriptor.  An orderly close (recv returning 0) leaves `errno` alone,
so the stale previous value decides the branch.
-/
def recv_step (prevErrno : Nat) : RecvResult → StepResult
  | .chunk _ => .looping prevErrno
  | .closed =>
    if prevErrno ≠ EAGAIN ∧ prevErrno ≠ EWOULDBLOCK then
      .ended ⟨true, true, true, false, 0⟩
    else
      .looping prevErrno
  | .fail e =>
    if e ≠ EAGAIN ∧ e ≠ EWOULDBLOCK then
      .ended ⟨true, true, true, false, 0⟩
    else
      .looping e

/-- The `atol` result assigned through a 32-bit `size_t`: reduced modulo
two to the thirty-second. -/
def sizeT (a : Int) : Nat := (a % (2 ^ 32 : Int)).toNat

/-- The `send_chunk` computation of `init_telnet`: the static
initializer is 300; only when the NVS string `telnet_block` exists is it
parsed (`none` models an absent value, `some a` a value whose `atol`
result is `a`; an unparsable string gives 0) and the positive-value test
applied, with fallback 500. -/
def init_send_chunk (v : Option Int) : Nat :=
  match v with
  | none => 300
  | some a => if 0 < sizeT a then sizeT a else 500

/-- The `log_buf_size` computation of `init_telnet`: static initializer
2000, fallback 4000 when a present `telnet_buffer` value parses to zero
through the unsigned conversion.  A negative parse wraps to a huge
positive `size_t`, passes the `>0` test and is kept. -/
def init_log_buf_size (v : Option Int) : Nat :=
  match v with
  | none => 2000
  | some a => if 0 < sizeT a then sizeT a else 4000

/-- Scrubbing with a lone `'n'`-free prefix before the terminator drops
exactly the prefix and the terminator. -/
theorem scanEsc_append (pre post : List Nat) (hpre : ∀ b ∈ pre, b ≠ nByte) :
    scanEsc (pre ++ nByte :: post) = some post := by
  induction pre with
  | nil => simp [scanEsc]
  | cons a as ih =>
    have ha : a ≠ nByte := hpre a (by simp)
    simp only [List.cons_append, scanEsc, if_neg ha]
    exact ih fun b hb => hpre b (by simp [hb])

/-- The size bookkeeping agrees with the pointer: whenever the scrub loop
stays inside the payload, the final size equals the length of the
remaining bytes. -/
theorem scanEscSz_of_scanEsc (buf rest : List Nat) :
    scanEsc buf = some rest →
    scanEscSz buf (buf.length : Int) = some (rest, (rest.length : Int)) := by
  suffices h : ∀ (d : Int), scanEsc buf = some rest →
      scanEscSz buf ((buf.length : Int) + d) = some (rest, (rest.length : Int) + d) by
    intro hscan
    have := h 0 hscan
    simpa using this
  induction buf with
  | nil => intro d h; simp [scanEsc] at h
  | cons a as ih =>
    intro d h
    by_cases ha : a = nByte
    · simp only [scanEsc, if_pos ha] at h
      obtain rfl : as = rest := Option.some.inj h
      simp only [scanEscSz, if_pos ha, List.length_cons]
      push_cast
      ring_nf
    · simp only [scanEsc, if_neg ha] at h
      have hrec := ih d h
      simp only [scanEscSz, if_neg ha, List.length_cons]
      push_cast
      rw [show ((as.length : Int) + 1 + d - 1) = (as.length : Int) + d by ring]
      exact hrec

/--
C1 counterexample: the payload ESC, `x`, `y`, `n`, `Z`, `h`, `e`, `l`,
`l`, `o`, CR does not yield the command `hello` CR.  The scrub loop
consumes the escape byte, `x`, `y` and the `n` (four bytes) while the
size count is decremented four times (three times in the loop body, once
after it), so the byte `Z` right after the `n` is kept: the command
handed to `run_command` is `Zhello` CR, not `hello` CR.
-/
theorem C1_counterexample :
    process_received_data false [27, 120, 121, 110, 90, 104, 101, 108, 108, 111, 13]
      = some ⟨none, some [90, 104, 101, 108, 108, 111, 13]⟩
    ∧ (some [90, 104, 101, 108, 108, 111, 13] : Option (List Nat))
      ≠ some [104, 101, 108, 108, 111, 13] := by decide

/--
C1 amended: for a payload beginning with the escape character, the
stripping step removes the escape character and every byte up to and
including the first following ASCII `n`, and nothing more; in particular
ESC + `xyn` + `Zhello` CR yields exactly the command `Zhello` CR handed
to the command-execution collaborator.
-/
theorem C1_strip_through_first_n (pre post : List Nat)
    (hpre : ∀ b ∈ pre, b ≠ nByte) :
    stripEscape (escByte :: (pre ++ nByte :: post)) = some post
    ∧ process_received_data false [27, 120, 121, 110, 90, 104, 101, 108, 108, 111, 13]
      = some ⟨none, some [90, 104, 101, 108, 108, 111, 13]⟩ := by
  refine ⟨?_, by decide⟩
  have hall : ∀ b ∈ escByte :: pre, b ≠ nByte := by
    intro b hb
    rcases List.mem_cons.mp hb with h | h
    · subst h; decide
    · exact hpre b h
  have hscan := scanEsc_append (escByte :: pre) post hall
  simp only [List.cons_append] at hscan
  simpa [stripEscape] using hscan

/-- C1 witness: the amended stripping law evaluated on the spec's own
example payload. -/
theorem C1_strip_through_first_n_witness :
    stripEscape (escByte :: ([120, 121] ++ nByte :: [90, 104, 101, 108, 108, 111, 13]))
      = some [90, 104, 101, 108, 108, 111, 13]
    ∧ process_received_data false [27, 120, 121, 110, 90, 104, 101, 108, 108, 111, 13]
      = some ⟨none, some [90, 104, 101, 108, 108, 111, 13]⟩ :=
  C1_strip_through_first_n [120, 121] [90, 104, 101, 108, 108, 111, 13] (by decide)

/--
C8: after stripping, a payload whose first remaining byte is carriage
return or line feed triggers neither the UART echo nor `run_command`;
otherwise the stripped text is mirrored (when mirroring is enabled) and
handed to `run_command` exactly once.
-/
theorem C8_newline_discard (mirror : Bool) (buf : List Nat) (b : Nat) (rest : List Nat)
    (hstrip : stripEscape buf = some (b :: rest)) :
    (b = crByte ∨ b = lfByte →
      process_received_data mirror buf = some ⟨none, none⟩)
    ∧ (b ≠ crByte ∧ b ≠ lfByte →
      process_received_data mirror buf
        = some ⟨if mirror then some (b :: rest) else none, some (b :: rest)⟩) := by
  constructor
  · intro h
    simp [process_received_data, hstrip, h]
  · intro h
    simp [process_received_data, hstrip, h.1, h.2]

/-- C8 witness: the payload `h` CR (no escape) is run as a command and
mirrored; the payload CR LF is discarded. -/
theorem C8_newline_discard_witness :
    process_received_data true [104, 13] = some ⟨some [104, 13], some [104, 13]⟩
    ∧ process_received_data true [13, 10] = some ⟨none, none⟩ :=
  ⟨by simpa using (C8_newline_discard true [104, 13] 104 [13] (by decide)).2 (by decide),
   by simpa using (C8_newline_discard true [13, 10] 13 [10] (by decide)).1 (Or.inl rfl)⟩

/--
C9 failing input: the three-byte payload ESC, `x`, `y` holds no ASCII
`n`, so the scrub loop consumes the whole payload without terminating
(`stripEscape` is `none`: in C the pointer has left the payload and the
read continues out of bounds), contradicting the claim that the scan
stops at or before the last byte.  Moreover, were the out-of-bounds
memory right after the payload to hold an `n`, the size count would end
at minus one — below zero, a `size_t` wrap-around.
-/
theorem C9_scan_leaves_payload :
    stripEscape [escByte, 120, 121] = none
    ∧ scanEscSz ([escByte, 120, 121] ++ [nByte]) 3 = some ([], -1)
    ∧ (-1 : Int) < 0 := by decide

/-- With the minimal-chunk receive of the model, the drain loop body runs
at most twice, so two units of fuel settle it: it removes the first
`toSend` bytes and sends them exactly when a session is attached. -/
theorem drainGo_eq (a : Bool) (f t : Nat) (b : List Nat) :
    drainGo a (f + 1 + 1) t b = (b.drop t, if a then b.take t else []) := by
  by_cases h : t = 0 ∨ b = []
  · rcases h with rfl | rfl <;> simp [drainGo]
  · push_neg at h
    have hstop : t - (b.take t).length = 0 ∨ b.drop t = [] := by
      rcases Nat.le_total t b.length with hle | hle
      · left
        simp only [List.length_take]
        omega
      · right
        exact List.drop_eq_nil_of_le hle
    have hcond : ¬(t = 0 ∨ b = []) := by tauto
    simp only [drainGo, if_neg hcond]
    rw [if_pos hstop]
    split <;> simp

/-- Closed form of the drain loop. -/
theorem drainLoop_eq (a : Bool) (t : Nat) (b : List Nat) :
    drainLoop a t b = (b.drop t, if a then b.take t else []) := by
  unfold drainLoop
  exact drainGo_eq a (t + b.length) t b

/-- The no-session low-occupancy early return of `process_logs`. -/
theorem process_logs_skip (C count : Nat) (buf : List Nat)
    (h : buf.length * 100 / C < 75) :
    process_logs 0 C count buf = (buf, []) := by
  unfold process_logs
  rw [if_pos ⟨rfl, h⟩]

/-- Closed form of `process_logs` when the early return is not taken. -/
theorem process_logs_drain (p C count : Nat) (buf : List Nat)
    (h : ¬(p = 0 ∧ buf.length * 100 / C < 75)) :
    process_logs p C count buf
      = (buf.drop (if count = 0 then buf.length else count),
         if (p != 0) then buf.take (if count = 0 then buf.length else count) else []) := by
  unfold process_logs
  rw [if_neg h, drainLoop_eq]

/--
C3: with no session attached (partner socket 0) and occupancy strictly
below the 75 % high-water mark, `process_logs` removes nothing from the
buffer; once occupancy reaches the mark, the call drains bytes (the
buffer strictly shrinks) and discards them — nothing is sent.
-/
theorem C3_no_session_high_water (C count : Nat) (buf : List Nat) (_hC : 0 < C) :
    (buf.length * 100 / C < 75 → process_logs 0 C count buf = (buf, []))
    ∧ (75 ≤ buf.length * 100 / C →
        (process_logs 0 C count buf).2 = []
        ∧ (process_logs 0 C count buf).1.length < buf.length) := by
  constructor
  · exact process_logs_skip C count buf
  · intro h75
    have hnot : ¬(0 = 0 ∧ buf.length * 100 / C < 75) := by
      intro hc
      exact absurd hc.2 (not_lt.mpr h75)
    rw [process_logs_drain 0 C count buf hnot]
    have hlen : 0 < buf.length := by
      rcases Nat.eq_zero_or_pos buf.length with h0 | h0
      · rw [h0] at h75
        simp at h75
      · exact h0
    refine ⟨by simp, ?_⟩
    simp only [List.length_drop]
    by_cases hcnt : count = 0 <;> simp [hcnt] <;> omega

/-- C3 witness: capacity 4; two buffered bytes (50 %) are untouched,
three buffered bytes (75 %) are evicted without being sent. -/
theorem C3_no_session_high_water_witness :
    process_logs 0 4 5 [1, 2] = ([1, 2], [])
    ∧ (process_logs 0 4 5 [1, 2, 3]).2 = []
    ∧ (process_logs 0 4 5 [1, 2, 3]).1.length < [1, 2, 3].length :=
  ⟨(C3_no_session_high_water 4 5 [1, 2] (by decide)).1 (by decide),
   ((C3_no_session_high_water 4 5 [1, 2, 3] (by decide)).2 (by decide)).1,
   ((C3_no_session_high_water 4 5 [1, 2, 3] (by decide)).2 (by decide)).2⟩

/--
C7: the `process_logs(0)` call made right after connection set-up (the
partner socket is already recorded, hence nonzero) empties the whole
buffer and sends every buffered byte to the peer, oldest first.
-/
theorem C7_flush_on_connect (C p : Nat) (buf : List Nat) (hp : p ≠ 0) :
    process_logs p C 0 buf = ([], buf) := by
  rw [process_logs_drain p C 0 buf (fun hc => hp hc.1)]
  have hb : (p != 0) = true := bne_iff_ne.mpr hp
  simp [hb]

/-- C7 witness: on connect with partner socket 7, the three buffered
bytes are all sent and the buffer is left empty. -/
theorem C7_flush_on_connect_witness :
    process_logs 7 2000 0 [5, 6, 7] = ([], [5, 6, 7]) :=
  C7_flush_on_connect 2000 7 [5, 6, 7] (by decide)

/--
C2: when the first append fails for lack of space, `stdout_write`
performs exactly one compaction pass (`process_logs` over up to the
incoming byte count, evicting oldest-first) and retries the append
exactly once: if the retry fits, the data is stored after the compacted
prefix; if not, the data is dropped while the call still returns its
normal value — no fatal error.  The last conjunct records that the
compaction either removed nothing (the no-session low-water skip) or
removed exactly the oldest `size` bytes.
-/
theorem C2_single_compaction_retry (mirror : Bool) (p cap : Nat) (uartRet : Int)
    (buf data : List Nat) (hfail : cap < buf.length + data.length) :
    ((process_logs p cap data.length buf).1.length + data.length ≤ cap →
      stdout_write mirror true p cap uartRet buf data
        = ⟨(process_logs p cap data.length buf).1 ++ data, true, 1, 2,
            (process_logs p cap data.length buf).2,
            if mirror then some data else none,
            if mirror then uartRet else 1⟩)
    ∧ (cap < (process_logs p cap data.length buf).1.length + data.length →
      stdout_write mirror true p cap uartRet buf data
        = ⟨(process_logs p cap data.length buf).1, false, 1, 2,
            (process_logs p cap data.length buf).2,
            if mirror then some data else none,
            if mirror then uartRet else 1⟩)
    ∧ ((process_logs p cap data.length buf).1 = buf
       ∨ (process_logs p cap data.length buf).1
          = buf.drop (if data.length = 0 then buf.length else data.length)) := by
  have hf : ¬(buf.length + data.length ≤ cap) := not_le.mpr hfail
  refine ⟨?_, ?_, ?_⟩
  · intro hok
    simp only [stdout_write, ringSend, if_true]
    rw [if_neg hf, if_pos hok]
  · intro hbad
    have hbad' : ¬((process_logs p cap data.length buf).1.length + data.length ≤ cap) :=
      not_le.mpr hbad
    simp only [stdout_write, ringSend, if_true]
    rw [if_neg hf, if_neg hbad']
  · by_cases hskip : p = 0 ∧ buf.length * 100 / cap < 75
    · left
      unfold process_logs
      rw [if_pos hskip]
    · right
      rw [process_logs_drain p cap data.length buf hskip]

/-- C2 witness: capacity 4, buffer full with 4 bytes, incoming 2 bytes,
no session: one compaction evicts the 2 oldest bytes and the retry
stores the data. -/
theorem C2_single_compaction_retry_witness :
    stdout_write false true 0 4 0 [1, 2, 3, 4] [5, 6]
      = ⟨[3, 4, 5, 6], true, 1, 2, [], none, 1⟩ := by
  have h := C2_single_compaction_retry false 0 4 0 [1, 2, 3, 4] [5, 6] (by decide)
  have h1 := h.1 (by decide)
  simpa using h1

/--
C10: the UART mirror of `stdout_write` is independent of the buffered
path: whatever the lock, partner, capacity and buffer state, with
mirroring on the full data is written to the UART exactly once and the
UART result is returned; with mirroring off nothing goes to the UART and
the constant `true` (1) is returned — never the number of buffered
bytes.
-/
theorem C10_uart_mirror_unconditional (mirror lockOk : Bool) (p cap : Nat)
    (uartRet : Int) (buf data : List Nat) :
    ((stdout_write mirror lockOk p cap uartRet buf data).uartOut
        = if mirror then some data else none)
    ∧ ((stdout_write mirror lockOk p cap uartRet buf data).ret
        = if mirror then uartRet else 1) := by
  cases lockOk with
  | false => simp [stdout_write]
  | true =>
    simp only [stdout_write, if_true]
    rcases h1 : ringSend cap buf data with _ | b1
    · rcases h2 : ringSend cap (process_logs p cap data.length buf).1 data with _ | b2
      · simp [h1, h2]
      · simp [h1, h2]
    · simp [h1]

/--
C4 counterexample: the echo row of the static table is
`(TELNET_WONT, TELNET_DO)` — echo is refused for the local side but the
peer's offer to echo is accepted (DO), while the claim requires it
refused (DONT).
-/
theorem C4_counterexample :
    stanceOf my_telopts TELNET_TELOPT_ECHO = some (TELNET_WONT, TELNET_DO)
    ∧ TELNET_DO ≠ TELNET_DONT := by decide

/--
C4 amended: the stances the table actually takes.  Echo: refused locally,
accepted from the peer.  Terminal type: offered locally, refused from
the peer.  Compression, the administrative class (ZMP), the status
option (MSSP) and line mode: refused locally but accepted from the
peer.  Binary: offered and accepted.  Window size: offered locally,
refused from the peer.
-/
theorem C4_option_stances :
    stanceOf my_telopts TELNET_TELOPT_ECHO = some (TELNET_WONT, TELNET_DO)
    ∧ stanceOf my_telopts TELNET_TELOPT_TTYPE = some (TELNET_WILL, TELNET_DONT)
    ∧ stanceOf my_telopts TELNET_TELOPT_COMPRESS2 = some (TELNET_WONT, TELNET_DO)
    ∧ stanceOf my_telopts TELNET_TELOPT_ZMP = some (TELNET_WONT, TELNET_DO)
    ∧ stanceOf my_telopts TELNET_TELOPT_MSSP = some (TELNET_WONT, TELNET_DO)
    ∧ stanceOf my_telopts TELNET_TELOPT_BINARY = some (TELNET_WILL, TELNET_DO)
    ∧ stanceOf my_telopts TELNET_TELOPT_NAWS = some (TELNET_WILL, TELNET_DONT)
    ∧ stanceOf my_telopts TELNET_TELOPT_LINEMODE = some (TELNET_WONT, TELNET_DO) := by
  decide

/--
C5 failing input: an orderly peer close is a `recv` return of 0 with
`errno` untouched, so right after a would-block iteration (`errno` still
EAGAIN) the loop keeps running instead of terminating — the claim's
"peer closing the socket" case is missed.  The second and third
conjuncts evaluate the teardown branch that does run on a genuine error
(and on a close with clean `errno`): it frees the engine handle, the
scratch buffer and the user data and clears the slot, but leaves the
socket descriptor unclosed, so the claim's "socket handle is released"
also fails.
-/
theorem C5_close_not_detected :
    recv_step EAGAIN RecvResult.closed = StepResult.looping EAGAIN
    ∧ recv_step EAGAIN (RecvResult.fail 104)
        = StepResult.ended ⟨true, true, true, false, 0⟩
    ∧ recv_step 0 RecvResult.closed
        = StepResult.ended ⟨true, true, true, false, 0⟩
    ∧ (Teardown.closedSocket ⟨true, true, true, false, 0⟩) = false := by decide

/--
C6 counterexample: when the NVS strings are absent, `init_telnet` never
touches the variables, so the effective send chunk stays at the static
initializer 300 and the capacity at 2000 — not the claimed defaults of
500 and 4000.
-/
theorem C6_counterexample :
    init_send_chunk none = 300 ∧ init_log_buf_size none = 2000
    ∧ (300 : Nat) ≠ 500 ∧ (2000 : Nat) ≠ 4000 := by decide

/--
C6 amended: a present configuration value whose parse reduced through
the 32-bit `size_t` is zero (an unparsable string, the string `0`, or a
multiple of two to the thirty-second) falls back to 500 bytes per chunk
and a 4000-byte capacity; any other present value is kept verbatim after
the unsigned conversion — in particular a negative parse such as −5
wraps to 4294967291 and is kept, not replaced by a default; an absent
value keeps the static initializers 300 and 2000.
-/
theorem C6_defaults :
    (∀ a : Int, sizeT a = 0 →
      init_send_chunk (some a) = 500 ∧ init_log_buf_size (some a) = 4000)
    ∧ (∀ a : Int, 0 < sizeT a →
      init_send_chunk (some a) = sizeT a ∧ init_log_buf_size (some a) = sizeT a)
    ∧ init_send_chunk (some (-5)) = 4294967291
    ∧ init_log_buf_size (some (-5)) = 4294967291
    ∧ init_send_chunk none = 300 ∧ init_log_buf_size none = 2000 := by
  refine ⟨?_, ?_, by decide, by decide, rfl, rfl⟩
  · intro a ha
    simp [init_send_chunk, init_log_buf_size, ha]
  · intro a ha
    simp [init_send_chunk, init_log_buf_size, ha]

/-- C6 witness: the parse 0 (an unparsable or zero string) falls back to
the 500 and 4000 defaults, while the positive parse 7 is kept. -/
theorem C6_defaults_witness :
    (init_send_chunk (some 0) = 500 ∧ init_log_buf_size (some 0) = 4000)
    ∧ (init_send_chunk (some 7) = sizeT 7 ∧ init_log_buf_size (some 7) = sizeT 7) :=
  ⟨C6_defaults.1 0 (by decide), C6_defaults.2.1 7 (by decide)⟩

/-- C10 witness: with mirroring on and the lock unavailable, the data
still goes to the UART and the UART result 7 is returned. -/
theorem C10_uart_mirror_unconditional_witness :
    (stdout_write true false 5 4 7 [1] [2, 3]).uartOut = some [2, 3]
    ∧ (stdout_write true false 5 4 7 [1] [2, 3]).ret = 7 := by
  simpa using C10_uart_mirror_unconditional true false 5 4 7 [1] [2, 3]

end Telnet
